import Mathlib

/-!
Verification of the `AnonymousMentalHealth` contract
(src/base-template/scripts/deploy.ts, embedded Solidity source).

The contract state and the five mutating entry points
(`registerPatient`, `updateMentalHealthLevels`, `startCounselingSession`,
`completeSession`, `createTherapyPlan`) are embedded as pure Lean
functions over an explicit `State`.  `msg.sender` and `block.timestamp`
become explicit `sender`/`now` arguments; a Solidity `require` failure or
checked-arithmetic panic becomes an `Except.error`, and the transaction
boundary (`applyOp`) keeps the pre-state on error, mirroring EVM revert
semantics.  Encrypted `euint8` handles are modelled as an opaque wrapper
`Euint8` around the plaintext passed to `FHE.asEuint8`; the FHE permission
calls (`FHE.allow*`) have no observable effect on the contract state and
are not modelled.  Addresses are `Nat`; `currentSessionId` is a `uint16`,
so its checked increment reverts once it reaches 65535.
-/

namespace AnonymousMentalHealth

/-- Opaque ciphertext handle produced by `FHE.asEuint8`. -/
structure Euint8 where
  val : Nat
deriving DecidableEq

/-- `FHE.asEuint8`: trivial encryption of a plaintext. -/
def asEuint8 (n : Nat) : Euint8 := ⟨n⟩

/-- `struct PatientProfile`. -/
structure PatientProfile where
  anxietyLevel : Euint8
  depressionLevel : Euint8
  stressLevel : Euint8
  isActive : Bool
  registrationTime : Nat
deriving DecidableEq

/-- `struct CounselingSession`. -/
structure CounselingSession where
  sessionType : Euint8
  severityLevel : Euint8
  sessionActive : Bool
  sessionCompleted : Bool
  patient : Nat
  startTime : Nat
  endTime : Nat
  improvementScore : Euint8
deriving DecidableEq

/-- `struct TherapyPlan`. -/
structure TherapyPlan where
  recommendedSessions : Euint8
  priorityLevel : Euint8
  planActive : Bool
  createdTime : Nat
deriving DecidableEq

/-- The contract's events, with exactly the payloads the Solidity
`event` declarations carry. -/
inductive Event where
  | patientRegistered (patient : Nat) (timestamp : Nat)
  | sessionStarted (sessionId : Nat) (patient : Nat) (startTime : Nat)
  | sessionCompleted (sessionId : Nat) (patient : Nat) (endTime : Nat)
  | therapyPlanCreated (patient : Nat) (timestamp : Nat)
  | emergencyAlert (patient : Nat) (timestamp : Nat)
deriving DecidableEq

/-- One value per distinct revert of the contract: each `require` message,
plus the Solidity 0.8 checked-arithmetic panic of `currentSessionId++`.
Note the contract has no "session not found" revert. -/
inductive Err where
  | levelsOutOfRange
  | alreadyRegistered
  | notRegistered
  | noSlotAvailable
  | invalidSessionType
  | severityOutOfRange
  | scoreOutOfRange
  | notAuthorized
  | sessionNotActive
  | sessionAlreadyCompleted
  | notCounselor
  | sessionsOutOfRange
  | priorityOutOfRange
  | uint16Overflow
deriving DecidableEq

/-- `BREAK_DURATION = 1800` (30 minutes). -/
def BREAK_DURATION : Nat := 1800

/-- Largest value of the `uint16` session counter. -/
def UINT16_MAX : Nat := 65535

/-- The contract storage. Solidity mappings become total functions with
the zero-initialised struct as default. -/
structure State where
  counselor : Nat
  currentSessionId : Nat
  lastSessionTime : Nat
  patientProfiles : Nat → PatientProfile
  sessions : Nat → CounselingSession
  therapyPlans : Nat → TherapyPlan
  patientSessions : Nat → List Nat

/-- Zero-initialised `PatientProfile` (mapping default). -/
def emptyProfile : PatientProfile :=
  { anxietyLevel := ⟨0⟩, depressionLevel := ⟨0⟩, stressLevel := ⟨0⟩,
    isActive := false, registrationTime := 0 }

/-- Zero-initialised `CounselingSession` (mapping default). -/
def emptySession : CounselingSession :=
  { sessionType := ⟨0⟩, severityLevel := ⟨0⟩, sessionActive := false,
    sessionCompleted := false, patient := 0, startTime := 0, endTime := 0,
    improvementScore := ⟨0⟩ }

/-- Zero-initialised `TherapyPlan` (mapping default). -/
def emptyPlan : TherapyPlan :=
  { recommendedSessions := ⟨0⟩, priorityLevel := ⟨0⟩, planActive := false,
    createdTime := 0 }

/-- The constructor: `counselor = msg.sender; currentSessionId = 1;
lastSessionTime = block.timestamp`. -/
def deploy (sender now : Nat) : State :=
  { counselor := sender, currentSessionId := 1, lastSessionTime := now,
    patientProfiles := fun _ => emptyProfile,
    sessions := fun _ => emptySession,
    therapyPlans := fun _ => emptyPlan,
    patientSessions := fun _ => [] }

/-- `isSessionTimeAvailable()`:
`block.timestamp >= lastSessionTime + BREAK_DURATION`. -/
def isSessionTimeAvailable (s : State) (now : Nat) : Bool :=
  decide (s.lastSessionTime + BREAK_DURATION ≤ now)

/-- The condition of `_checkEmergencyLevel`: any level `>= 9`, or all
levels `>= 7`. -/
def checkEmergencyLevel (anxiety depression stress : Nat) : Bool :=
  decide (9 ≤ anxiety) || decide (9 ≤ depression) || decide (9 ≤ stress) ||
    (decide (7 ≤ anxiety) && decide (7 ≤ depression) && decide (7 ≤ stress))

/-- Events emitted by `_checkEmergencyLevel`: an `EmergencyAlert` carrying
only caller and timestamp when the threshold condition holds. -/
def emergencyAlertEvents (sender now anxiety depression stress : Nat) : List Event :=
  if checkEmergencyLevel anxiety depression stress then
    [Event.emergencyAlert sender now]
  else []

/-- `registerPatient(_anxietyLevel, _depressionLevel, _stressLevel)`. -/
def registerPatient (s : State) (sender now anxietyLevel depressionLevel stressLevel : Nat) :
    Except Err (State × List Event) :=
  if ¬ (anxietyLevel ≤ 10 ∧ depressionLevel ≤ 10 ∧ stressLevel ≤ 10) then
    .error .levelsOutOfRange
  else if (s.patientProfiles sender).isActive = true then
    .error .alreadyRegistered
  else
    let profile : PatientProfile :=
      { anxietyLevel := asEuint8 anxietyLevel,
        depressionLevel := asEuint8 depressionLevel,
        stressLevel := asEuint8 stressLevel,
        isActive := true,
        registrationTime := now }
    .ok ({ s with patientProfiles := fun a => if a = sender then profile else s.patientProfiles a },
      emergencyAlertEvents sender now anxietyLevel depressionLevel stressLevel ++
        [Event.patientRegistered sender now])

/-- `startCounselingSession(_sessionType, _severityLevel)`.  Modifier
order: `onlyRegisteredPatient`, then `sessionAvailable`, then the body's
range checks.  The `currentSessionId++` at the end of the body is checked
`uint16` arithmetic, so the whole call reverts once the counter has
reached 65535; since a revert discards every store of the call, the check
is placed before the stores here. -/
def startCounselingSession (s : State) (sender now sessionType severityLevel : Nat) :
    Except Err (State × List Event) :=
  if ¬ (s.patientProfiles sender).isActive = true then
    .error .notRegistered
  else if ¬ isSessionTimeAvailable s now = true then
    .error .noSlotAvailable
  else if ¬ (1 ≤ sessionType ∧ sessionType ≤ 4) then
    .error .invalidSessionType
  else if ¬ (1 ≤ severityLevel ∧ severityLevel ≤ 10) then
    .error .severityOutOfRange
  else if UINT16_MAX ≤ s.currentSessionId then
    .error .uint16Overflow
  else
    let sid := s.currentSessionId
    let session : CounselingSession :=
      { sessionType := asEuint8 sessionType,
        severityLevel := asEuint8 severityLevel,
        sessionActive := true,
        sessionCompleted := false,
        patient := sender,
        startTime := now,
        endTime := 0,
        improvementScore := asEuint8 0 }
    .ok ({ s with
            sessions := fun i => if i = sid then session else s.sessions i,
            patientSessions := fun a =>
              if a = sender then s.patientSessions a ++ [sid] else s.patientSessions a,
            currentSessionId := sid + 1,
            lastSessionTime := now },
      [Event.sessionStarted sid sender now])

/-- `completeSession(_sessionId, _improvementScore)`.  Require order as in
the source: score range, authorization, `sessionActive`,
`!sessionCompleted`. -/
def completeSession (s : State) (sender now sessionId improvementScore : Nat) :
    Except Err (State × List Event) :=
  if ¬ improvementScore ≤ 10 then
    .error .scoreOutOfRange
  else
    let session := s.sessions sessionId
    if ¬ (session.patient = sender ∨ sender = s.counselor) then
      .error .notAuthorized
    else if ¬ session.sessionActive = true then
      .error .sessionNotActive
    else if session.sessionCompleted = true then
      .error .sessionAlreadyCompleted
    else
      let session2 : CounselingSession :=
        { session with
            improvementScore := asEuint8 improvementScore,
            sessionActive := false,
            sessionCompleted := true,
            endTime := now }
      .ok ({ s with sessions := fun i => if i = sessionId then session2 else s.sessions i },
        [Event.sessionCompleted sessionId session.patient now])

/-- `createTherapyPlan(_patient, _recommendedSessions, _priorityLevel)`:
`onlyCounselor`, then patient-registered, then range checks. -/
def createTherapyPlan (s : State) (sender now patient recommendedSessions priorityLevel : Nat) :
    Except Err (State × List Event) :=
  if ¬ sender = s.counselor then
    .error .notCounselor
  else if ¬ (s.patientProfiles patient).isActive = true then
    .error .notRegistered
  else if ¬ (1 ≤ recommendedSessions ∧ recommendedSessions ≤ 20) then
    .error .sessionsOutOfRange
  else if ¬ (1 ≤ priorityLevel ∧ priorityLevel ≤ 4) then
    .error .priorityOutOfRange
  else
    let plan : TherapyPlan :=
      { recommendedSessions := asEuint8 recommendedSessions,
        priorityLevel := asEuint8 priorityLevel,
        planActive := true,
        createdTime := now }
    .ok ({ s with therapyPlans := fun a => if a = patient then plan else s.therapyPlans a },
      [Event.therapyPlanCreated patient now])

/-- `updateMentalHealthLevels(...)`: `onlyRegisteredPatient`, then the
range check; overwrites the three encrypted fields in place. -/
def updateMentalHealthLevels (s : State) (sender now anxietyLevel depressionLevel stressLevel : Nat) :
    Except Err (State × List Event) :=
  if ¬ (s.patientProfiles sender).isActive = true then
    .error .notRegistered
  else if ¬ (anxietyLevel ≤ 10 ∧ depressionLevel ≤ 10 ∧ stressLevel ≤ 10) then
    .error .levelsOutOfRange
  else
    let profile := s.patientProfiles sender
    let profile2 : PatientProfile :=
      { profile with
          anxietyLevel := asEuint8 anxietyLevel,
          depressionLevel := asEuint8 depressionLevel,
          stressLevel := asEuint8 stressLevel }
    .ok ({ s with patientProfiles := fun a => if a = sender then profile2 else s.patientProfiles a },
      emergencyAlertEvents sender now anxietyLevel depressionLevel stressLevel)

/-- `getSessionInfo(_sessionId)`: the non-encrypted session fields. -/
def getSessionInfo (s : State) (sessionId : Nat) : Bool × Bool × Nat × Nat × Nat :=
  let session := s.sessions sessionId
  (session.sessionActive, session.sessionCompleted, session.startTime,
    session.endTime, session.patient)

/-- `getSessionAvailability()`. -/
def getSessionAvailability (s : State) (now : Nat) : Bool × Nat × Nat :=
  let isAvailable := isSessionTimeAvailable s now
  (isAvailable, if isAvailable then now else s.lastSessionTime + BREAK_DURATION, now)

/-- `getPatientSessionCount(_patient)`. -/
def getPatientSessionCount (s : State) (patient : Nat) : Nat :=
  (s.patientSessions patient).length

/-- `getSessionStats()`. -/
def getSessionStats (s : State) : Nat × Nat × Nat :=
  (s.currentSessionId, s.currentSessionId - 1, s.lastSessionTime)

/-- `isPatientRegistered(_patient)`. -/
def isPatientRegistered (s : State) (patient : Nat) : Bool :=
  (s.patientProfiles patient).isActive

/-- `getTherapyPlanStatus(_patient)`. -/
def getTherapyPlanStatus (s : State) (patient : Nat) : Bool × Nat :=
  ((s.therapyPlans patient).planActive, (s.therapyPlans patient).createdTime)

/-- A transaction against the contract: one external mutating call with
explicit sender and timestamp. -/
inductive Op where
  | register (sender now anxiety depression stress : Nat)
  | updateLevels (sender now anxiety depression stress : Nat)
  | startSession (sender now sessionType severity : Nat)
  | complete (sender now sessionId score : Nat)
  | createPlan (sender now patient recommendedSessions priority : Nat)

/-- Dispatch one call. -/
def stepOp (s : State) : Op → Except Err (State × List Event)
  | .register sender now a d st => registerPatient s sender now a d st
  | .updateLevels sender now a d st => updateMentalHealthLevels s sender now a d st
  | .startSession sender now ty sev => startCounselingSession s sender now ty sev
  | .complete sender now sid score => completeSession s sender now sid score
  | .createPlan sender now p r pr => createTherapyPlan s sender now p r pr

/-- Transaction semantics: a revert (error) leaves the state unchanged. -/
def applyOp (s : State) (op : Op) : State :=
  match stepOp s op with
  | .ok (s2, _) => s2
  | .error _ => s

/-- The revert reason of a call, `none` on success. -/
def opError (s : State) (op : Op) : Option Err :=
  match stepOp s op with
  | .ok _ => none
  | .error e => some e

/-- The events emitted by a call (a revert emits nothing). -/
def opEvents (s : State) (op : Op) : List Event :=
  match stepOp s op with
  | .ok (_, events) => events
  | .error _ => []

/-- Run a sequence of transactions. -/
def run (s : State) (ops : List Op) : State := ops.foldl applyOp s

/-- Whether a transaction is a successful `startCounselingSession`. -/
def isStartSuccess (s : State) (op : Op) : Bool :=
  match op with
  | .startSession _ _ _ _ => (opError s op).isNone
  | _ => false

/-- Number of successful session starts along a run. -/
def countStarts : State → List Op → Nat
  | _, [] => 0
  | s, op :: ops => (if isStartSuccess s op then 1 else 0) + countStarts (applyOp s op) ops



/-- Reachability invariant of the session map: the counter stays in
`[1, 65535]`, every id in `[1, currentSessionId)` holds a created
(active or completed) session, and every other id holds the mapping
default. -/
def Inv (s : State) : Prop :=
  1 ≤ s.currentSessionId ∧ s.currentSessionId ≤ UINT16_MAX ∧
  (∀ i, 1 ≤ i → i < s.currentSessionId →
    (s.sessions i).sessionActive = true ∨ (s.sessions i).sessionCompleted = true) ∧
  (∀ i, ¬ (1 ≤ i ∧ i < s.currentSessionId) → s.sessions i = emptySession)

/-- Whether a transaction writes the profile or therapy-plan mapping
entry of account `a`. -/
def opTouchesAccount (op : Op) (a : Nat) : Prop :=
  match op with
  | .register sender _ _ _ _ => a = sender
  | .updateLevels sender _ _ _ _ => a = sender
  | .createPlan _ _ patient _ _ => a = patient
  | _ => False

/-- Scenario prefix shared by several checks: deploy at time 0 with
counselor 1, then register patients 2 and 3 at time 0. -/
def scenarioBase : State :=
  applyOp (applyOp (deploy 1 0) (Op.register 2 0 7 5 6)) (Op.register 3 0 6 5 7)

/-- Scenario state after patient 2 starts session 1 at time 1800. -/
def scenarioAfterStart : State := applyOp scenarioBase (Op.startSession 2 1800 1 8)

/-- Scenario state after patient 2 completes session 1 at time 1800. -/
def scenarioAfterComplete : State := applyOp scenarioAfterStart (Op.complete 2 1800 1 7)

/-- State after `k` successful session starts: deploy at time 0 with
counselor 1, register patient 2 at time 0, then have patient 2 start one
session at each time `1800 * i` for `i = 1 .. k`. -/
def startChain : Nat → State
  | 0 => applyOp (deploy 1 0) (Op.register 2 0 7 5 6)
  | k + 1 => applyOp (startChain k) (Op.startSession 2 (1800 * (k + 1)) 1 1)



theorem applyOp_of_ok (s s2 : State) (ev : List Event) (op : Op)
    (h : stepOp s op = .ok (s2, ev)) : applyOp s op = s2 := by
  unfold applyOp
  rw [h]

theorem applyOp_of_error (s : State) (e : Err) (op : Op)
    (h : stepOp s op = .error e) : applyOp s op = s := by
  unfold applyOp
  rw [h]

theorem opError_of_ok (s s2 : State) (ev : List Event) (op : Op)
    (h : stepOp s op = .ok (s2, ev)) : opError s op = none := by
  unfold opError
  rw [h]

theorem opError_of_error (s : State) (e : Err) (op : Op)
    (h : stepOp s op = .error e) : opError s op = some e := by
  unfold opError
  rw [h]

theorem applyOp_of_opError (s : State) (e : Err) (op : Op)
    (h : opError s op = some e) : applyOp s op = s := by
  unfold opError at h
  unfold applyOp
  cases hs : stepOp s op with
  | ok v => rw [hs] at h; exact absurd h (by simp)
  | error e2 => rfl

theorem register_ok_fields (s s2 : State) (ev : List Event) (sender now a d st : Nat)
    (h : stepOp s (Op.register sender now a d st) = .ok (s2, ev)) :
    s2.sessions = s.sessions ∧ s2.currentSessionId = s.currentSessionId ∧
      s2.lastSessionTime = s.lastSessionTime ∧ s2.counselor = s.counselor ∧
      s2.therapyPlans = s.therapyPlans ∧
      (∀ x, x ≠ sender → s2.patientProfiles x = s.patientProfiles x) := by
  simp only [stepOp, registerPatient] at h
  split at h
  · exact absurd h (by simp)
  · split at h
    · exact absurd h (by simp)
    · simp only [Except.ok.injEq, Prod.mk.injEq] at h
      obtain ⟨hs, -⟩ := h
      subst hs
      refine ⟨rfl, rfl, rfl, rfl, rfl, fun x hx => ?_⟩
      simp [hx]

theorem updateLevels_ok_fields (s s2 : State) (ev : List Event) (sender now a d st : Nat)
    (h : stepOp s (Op.updateLevels sender now a d st) = .ok (s2, ev)) :
    s2.sessions = s.sessions ∧ s2.currentSessionId = s.currentSessionId ∧
      s2.lastSessionTime = s.lastSessionTime ∧ s2.counselor = s.counselor ∧
      s2.therapyPlans = s.therapyPlans ∧
      (∀ x, x ≠ sender → s2.patientProfiles x = s.patientProfiles x) := by
  simp only [stepOp, updateMentalHealthLevels] at h
  split at h
  · exact absurd h (by simp)
  · split at h
    · exact absurd h (by simp)
    · simp only [Except.ok.injEq, Prod.mk.injEq] at h
      obtain ⟨hs, -⟩ := h
      subst hs
      refine ⟨rfl, rfl, rfl, rfl, rfl, fun x hx => ?_⟩
      simp [hx]

theorem createPlan_ok_fields (s s2 : State) (ev : List Event) (sender now patient r pr : Nat)
    (h : stepOp s (Op.createPlan sender now patient r pr) = .ok (s2, ev)) :
    s2.sessions = s.sessions ∧ s2.currentSessionId = s.currentSessionId ∧
      s2.lastSessionTime = s.lastSessionTime ∧ s2.counselor = s.counselor ∧
      s2.patientProfiles = s.patientProfiles ∧
      (∀ x, x ≠ patient → s2.therapyPlans x = s.therapyPlans x) := by
  simp only [stepOp, createTherapyPlan] at h
  split at h
  · exact absurd h (by simp)
  · split at h
    · exact absurd h (by simp)
    · split at h
      · exact absurd h (by simp)
      · split at h
        · exact absurd h (by simp)
        · simp only [Except.ok.injEq, Prod.mk.injEq] at h
          obtain ⟨hs, -⟩ := h
          subst hs
          refine ⟨rfl, rfl, rfl, rfl, rfl, fun x hx => ?_⟩
          simp [hx]

theorem complete_ok_fields (s s2 : State) (ev : List Event) (sender now sid score : Nat)
    (h : stepOp s (Op.complete sender now sid score) = .ok (s2, ev)) :
    s2.currentSessionId = s.currentSessionId ∧
      s2.lastSessionTime = s.lastSessionTime ∧ s2.counselor = s.counselor ∧
      s2.patientProfiles = s.patientProfiles ∧ s2.therapyPlans = s.therapyPlans ∧
      (s.sessions sid).sessionActive = true ∧
      (∀ i, i ≠ sid → s2.sessions i = s.sessions i) ∧
      (s2.sessions sid).sessionActive = false ∧
      (s2.sessions sid).sessionCompleted = true := by
  simp only [stepOp, completeSession] at h
  split at h
  · exact absurd h (by simp)
  · split at h
    · exact absurd h (by simp)
    · split at h
      · exact absurd h (by simp)
      · split at h
        · exact absurd h (by simp)
        · rename_i hscore hauth hactive hdone
          simp only [Except.ok.injEq, Prod.mk.injEq] at h
          obtain ⟨hs, -⟩ := h
          subst hs
          refine ⟨rfl, rfl, rfl, rfl, rfl, by simpa using hactive, fun i hi => by simp [hi], ?_, ?_⟩
          · simp
          · simp

theorem start_ok_fields (s s2 : State) (ev : List Event) (sender now ty sev : Nat)
    (h : stepOp s (Op.startSession sender now ty sev) = .ok (s2, ev)) :
    s.currentSessionId < UINT16_MAX ∧
      s2.currentSessionId = s.currentSessionId + 1 ∧
      s2.lastSessionTime = now ∧ s2.counselor = s.counselor ∧
      s2.patientProfiles = s.patientProfiles ∧ s2.therapyPlans = s.therapyPlans ∧
      (∀ i, i ≠ s.currentSessionId → s2.sessions i = s.sessions i) ∧
      (s2.sessions s.currentSessionId).sessionActive = true ∧
      ev = [Event.sessionStarted s.currentSessionId sender now] := by
  simp only [stepOp, startCounselingSession] at h
  split at h
  · exact absurd h (by simp)
  · split at h
    · exact absurd h (by simp)
    · split at h
      · exact absurd h (by simp)
      · split at h
        · exact absurd h (by simp)
        · split at h
          · exact absurd h (by simp)
          · rename_i hreg havail hty hsev hmax
            simp only [Except.ok.injEq, Prod.mk.injEq] at h
            obtain ⟨hs, hev⟩ := h
            subst hs
            refine ⟨by omega, rfl, rfl, rfl, rfl, rfl, fun i hi => by simp [hi], by simp, hev.symm⟩



-- forward lemmas for startCounselingSession
theorem startSession_noSlot (s : State) (sender now ty sev : Nat)
    (hreg : (s.patientProfiles sender).isActive = true)
    (htime : now < s.lastSessionTime + BREAK_DURATION) :
    opError s (Op.startSession sender now ty sev) = some Err.noSlotAvailable := by
  unfold opError
  simp only [stepOp, startCounselingSession, isSessionTimeAvailable]
  rw [if_neg (by simp [hreg]), if_pos (by simp; omega)]

theorem startSession_ok (s : State) (sender now ty sev : Nat)
    (hreg : (s.patientProfiles sender).isActive = true)
    (htime : s.lastSessionTime + BREAK_DURATION ≤ now)
    (hty1 : 1 ≤ ty) (hty4 : ty ≤ 4) (hsev1 : 1 ≤ sev) (hsev10 : sev ≤ 10)
    (hmax : s.currentSessionId < UINT16_MAX) :
    opError s (Op.startSession sender now ty sev) = none ∧
      (applyOp s (Op.startSession sender now ty sev)).currentSessionId = s.currentSessionId + 1 ∧
      (applyOp s (Op.startSession sender now ty sev)).lastSessionTime = now ∧
      (applyOp s (Op.startSession sender now ty sev)).patientProfiles = s.patientProfiles ∧
      (applyOp s (Op.startSession sender now ty sev)).counselor = s.counselor := by
  unfold opError applyOp
  simp only [stepOp, startCounselingSession, isSessionTimeAvailable]
  rw [if_neg (by simp [hreg]), if_neg (by simp; omega), if_neg (by omega), if_neg (by omega),
    if_neg (by omega)]
  exact ⟨rfl, rfl, rfl, rfl, rfl⟩

theorem startSession_overflow (s : State) (sender now ty sev : Nat)
    (hreg : (s.patientProfiles sender).isActive = true)
    (htime : s.lastSessionTime + BREAK_DURATION ≤ now)
    (hty1 : 1 ≤ ty) (hty4 : ty ≤ 4) (hsev1 : 1 ≤ sev) (hsev10 : sev ≤ 10)
    (hmax : UINT16_MAX ≤ s.currentSessionId) :
    opError s (Op.startSession sender now ty sev) = some Err.uint16Overflow := by
  unfold opError
  simp only [stepOp, startCounselingSession, isSessionTimeAvailable]
  rw [if_neg (by simp [hreg]), if_neg (by simp; omega), if_neg (by omega), if_neg (by omega),
    if_pos hmax]


theorem inv_deploy (c t : Nat) : Inv (deploy c t) := by
  refine ⟨by simp [deploy], by simp [deploy, UINT16_MAX], ?_, ?_⟩
  · intro i h1 h2
    simp [deploy] at h2
    omega
  · intro i _
    rfl

theorem inv_applyOp (s : State) (op : Op) (hs : Inv s) : Inv (applyOp s op) := by
  obtain ⟨h1, h2, hcreated, hempty⟩ := hs
  cases hstep : stepOp s op with
  | error e =>
    rw [applyOp_of_error s e op hstep]
    exact ⟨h1, h2, hcreated, hempty⟩
  | ok v =>
    obtain ⟨s2, ev⟩ := v
    rw [applyOp_of_ok s s2 ev op hstep]
    cases op with
    | register sender now a d st =>
      obtain ⟨hsess, hcid, -⟩ := register_ok_fields s s2 ev sender now a d st hstep
      exact ⟨by rw [hcid]; exact h1, by rw [hcid]; exact h2,
        by rw [hcid, hsess]; exact hcreated, by rw [hcid, hsess]; exact hempty⟩
    | updateLevels sender now a d st =>
      obtain ⟨hsess, hcid, -⟩ := updateLevels_ok_fields s s2 ev sender now a d st hstep
      exact ⟨by rw [hcid]; exact h1, by rw [hcid]; exact h2,
        by rw [hcid, hsess]; exact hcreated, by rw [hcid, hsess]; exact hempty⟩
    | createPlan sender now patient r pr =>
      obtain ⟨hsess, hcid, -⟩ := createPlan_ok_fields s s2 ev sender now patient r pr hstep
      exact ⟨by rw [hcid]; exact h1, by rw [hcid]; exact h2,
        by rw [hcid, hsess]; exact hcreated, by rw [hcid, hsess]; exact hempty⟩
    | complete sender now sid score =>
      obtain ⟨hcid, -, -, -, -, hact, hother, hact2, hdone2⟩ :=
        complete_ok_fields s s2 ev sender now sid score hstep
      have hsid_range : 1 ≤ sid ∧ sid < s.currentSessionId := by
        by_contra hc
        rw [hempty sid hc] at hact
        simp [emptySession] at hact
      refine ⟨by rw [hcid]; exact h1, by rw [hcid]; exact h2, ?_, ?_⟩
      · intro i hi1 hi2
        rw [hcid] at hi2
        by_cases his : i = sid
        · subst his
          right
          exact hdone2
        · rw [hother i his]
          exact hcreated i hi1 hi2
      · intro i hi
        rw [hcid] at hi
        have hisne : i ≠ sid := by
          rintro rfl
          exact hi hsid_range
        rw [hother i hisne]
        exact hempty i hi
    | startSession sender now ty sev =>
      obtain ⟨hmax, hcid, -, -, -, -, hother, hnew, -⟩ :=
        start_ok_fields s s2 ev sender now ty sev hstep
      refine ⟨by rw [hcid]; omega, ?_, ?_, ?_⟩
      · rw [hcid]
        unfold UINT16_MAX at hmax ⊢
        omega
      · intro i hi1 hi2
        rw [hcid] at hi2
        by_cases his : i = s.currentSessionId
        · subst his
          left
          exact hnew
        · rw [hother i his]
          exact hcreated i hi1 (by omega)
      · intro i hi
        rw [hcid] at hi
        have hisne : i ≠ s.currentSessionId := by omega
        rw [hother i hisne]
        exact hempty i (by omega)

theorem currentSessionId_applyOp (s : State) (op : Op) :
    (applyOp s op).currentSessionId =
      s.currentSessionId + (if isStartSuccess s op then 1 else 0) := by
  cases hstep : stepOp s op with
  | error e =>
    rw [applyOp_of_error s e op hstep]
    have hfail : isStartSuccess s op = false := by
      cases op <;> simp [isStartSuccess, opError_of_error _ _ _ hstep]
    rw [hfail]
    simp
  | ok v =>
    obtain ⟨s2, ev⟩ := v
    rw [applyOp_of_ok s s2 ev op hstep]
    cases op with
    | register sender now a d st =>
      rw [(register_ok_fields s s2 ev sender now a d st hstep).2.1]
      simp [isStartSuccess]
    | updateLevels sender now a d st =>
      rw [(updateLevels_ok_fields s s2 ev sender now a d st hstep).2.1]
      simp [isStartSuccess]
    | createPlan sender now patient r pr =>
      rw [(createPlan_ok_fields s s2 ev sender now patient r pr hstep).2.1]
      simp [isStartSuccess]
    | complete sender now sid score =>
      rw [(complete_ok_fields s s2 ev sender now sid score hstep).1]
      simp [isStartSuccess]
    | startSession sender now ty sev =>
      rw [(start_ok_fields s s2 ev sender now ty sev hstep).2.1]
      simp [isStartSuccess, opError_of_ok _ _ _ _ hstep]

theorem inv_run (s : State) (ops : List Op) (hs : Inv s) : Inv (run s ops) := by
  induction ops generalizing s with
  | nil => exact hs
  | cons op ops ih => exact ih (applyOp s op) (inv_applyOp s op hs)

theorem currentSessionId_run (s : State) (ops : List Op) :
    (run s ops).currentSessionId = s.currentSessionId + countStarts s ops := by
  induction ops generalizing s with
  | nil => simp [run, countStarts]
  | cons op ops ih =>
    show (run (applyOp s op) ops).currentSessionId = _
    rw [ih (applyOp s op)]
    have hc : countStarts s (op :: ops) =
        (if isStartSuccess s op then 1 else 0) + countStarts (applyOp s op) ops := rfl
    rw [hc, currentSessionId_applyOp s op]
    cases h : isStartSuccess s op
    · simp [h]
    · simp only [h, if_true]
      omega

theorem account_frame (s : State) (op : Op) (a : Nat) (h : ¬ opTouchesAccount op a) :
    (applyOp s op).patientProfiles a = s.patientProfiles a ∧
      (applyOp s op).therapyPlans a = s.therapyPlans a := by
  cases hstep : stepOp s op with
  | error e =>
    rw [applyOp_of_error s e op hstep]
    exact ⟨rfl, rfl⟩
  | ok v =>
    obtain ⟨s2, ev⟩ := v
    rw [applyOp_of_ok s s2 ev op hstep]
    cases op with
    | register sender now aa d st =>
      simp only [opTouchesAccount] at h
      obtain ⟨-, -, -, -, hplans, hprof⟩ := register_ok_fields s s2 ev sender now aa d st hstep
      exact ⟨hprof a h, by rw [hplans]⟩
    | updateLevels sender now aa d st =>
      simp only [opTouchesAccount] at h
      obtain ⟨-, -, -, -, hplans, hprof⟩ := updateLevels_ok_fields s s2 ev sender now aa d st hstep
      exact ⟨hprof a h, by rw [hplans]⟩
    | createPlan sender now patient r pr =>
      simp only [opTouchesAccount] at h
      obtain ⟨-, -, -, -, hprof, hplans⟩ := createPlan_ok_fields s s2 ev sender now patient r pr hstep
      exact ⟨by rw [hprof], hplans a h⟩
    | complete sender now sid score =>
      obtain ⟨-, -, -, hprof, hplans, -⟩ := complete_ok_fields s s2 ev sender now sid score hstep
      exact ⟨by rw [hprof], by rw [hplans]⟩
    | startSession sender now ty sev =>
      obtain ⟨-, -, -, -, hprof, hplans, -⟩ := start_ok_fields s s2 ev sender now ty sev hstep
      exact ⟨by rw [hprof], by rw [hplans]⟩

theorem account_frame_run (s : State) (ops : List Op) (a : Nat)
    (h : ∀ op ∈ ops, ¬ opTouchesAccount op a) :
    (run s ops).patientProfiles a = s.patientProfiles a ∧
      (run s ops).therapyPlans a = s.therapyPlans a := by
  induction ops generalizing s with
  | nil => exact ⟨rfl, rfl⟩
  | cons op ops ih =>
    have hhd := account_frame s op a (h op (by simp))
    have htl := ih (applyOp s op) (fun op2 hm => h op2 (by simp [hm]))
    exact ⟨htl.1.trans hhd.1, htl.2.trans hhd.2⟩


theorem opEvents_of_ok (s s2 : State) (ev : List Event) (op : Op)
    (h : stepOp s op = .ok (s2, ev)) : opEvents s op = ev := by
  unfold opEvents
  rw [h]

theorem startChain_fields : ∀ k, k ≤ 65534 →
    (startChain k).currentSessionId = k + 1 ∧
    (startChain k).lastSessionTime = 1800 * k ∧
    ((startChain k).patientProfiles 2).isActive = true := by
  intro k
  induction k with
  | zero => exact fun _ => ⟨by decide, by decide, by decide⟩
  | succ k ih =>
    intro hk
    obtain ⟨hcid, hlast, hreg⟩ := ih (by omega)
    have hok := startSession_ok (startChain k) 2 (1800 * (k + 1)) 1 1 hreg
      (by rw [hlast]; simp only [BREAK_DURATION]; omega)
      (by norm_num) (by norm_num) (by norm_num) (by norm_num)
      (by rw [hcid]; simp only [UINT16_MAX]; omega)
    refine ⟨?_, ?_, ?_⟩
    · show (applyOp (startChain k) (Op.startSession 2 (1800 * (k + 1)) 1 1)).currentSessionId = _
      rw [hok.2.1, hcid]
    · show (applyOp (startChain k) (Op.startSession 2 (1800 * (k + 1)) 1 1)).lastSessionTime = _
      rw [hok.2.2.1]
    · show ((applyOp (startChain k) (Op.startSession 2 (1800 * (k + 1)) 1 1)).patientProfiles 2).isActive = true
      rw [hok.2.2.2.1]
      exact hreg


/-- C1: section-8 end-to-end scenario, evaluated on the code.  With deploy,
register(7,5,6) and startSession(1,8) all at the same timestamp (no passage
of time), registration succeeds with no emergency alert, but the immediately
following startSession reverts with no-slot-available (the constructor sets
`lastSessionTime` to the deployment timestamp), contradicting the claimed
immediate success; after 1800 seconds the start succeeds with id 1, a second
start by another registered identity at the same time fails with
no-slot-available, completeSession(1,7) succeeds, and a second completion
fails with session-not-active rather than the claimed already-completed. -/
theorem endToEnd_scenario_eval :
    opEvents (deploy 1 0) (Op.register 2 0 7 5 6) = [Event.patientRegistered 2 0] ∧
    opError (applyOp (deploy 1 0) (Op.register 2 0 7 5 6)) (Op.startSession 2 0 1 8) =
      some Err.noSlotAvailable ∧
    opEvents scenarioBase (Op.startSession 2 1800 1 8) = [Event.sessionStarted 1 2 1800] ∧
    opError scenarioAfterStart (Op.startSession 3 1800 2 7) = some Err.noSlotAvailable ∧
    opError scenarioAfterStart (Op.complete 2 1800 1 7) = none ∧
    opError scenarioAfterComplete (Op.complete 2 1900 1 4) = some Err.sessionNotActive := by
  decide

/-- C2 (amended): for a caller with an active profile, a startSession call
strictly before `lastSessionTime + BREAK_DURATION` fails with
no-slot-available; at or after that boundary, with sessionType in 1..4,
severity in 1..10 and the uint16 session counter below its maximum, the
call succeeds and sets `lastSessionTime` to the current time. -/
theorem startSession_cooldown (s : State) (sender now ty sev : Nat)
    (hreg : (s.patientProfiles sender).isActive = true) :
    (now < s.lastSessionTime + BREAK_DURATION →
      opError s (Op.startSession sender now ty sev) = some Err.noSlotAvailable) ∧
    (s.lastSessionTime + BREAK_DURATION ≤ now → 1 ≤ ty → ty ≤ 4 → 1 ≤ sev → sev ≤ 10 →
      s.currentSessionId < UINT16_MAX →
      opError s (Op.startSession sender now ty sev) = none ∧
      (applyOp s (Op.startSession sender now ty sev)).lastSessionTime = now) := by
  constructor
  · intro ht
    exact startSession_noSlot s sender now ty sev hreg ht
  · intro ht h1 h2 h3 h4 h5
    have h := startSession_ok s sender now ty sev hreg ht h1 h2 h3 h4 h5
    exact ⟨h.1, h.2.2.1⟩

/-- Witness for C2: in the scenario state, a start at time 10 fails with
no-slot-available and a start at time 1800 succeeds. -/
theorem startSession_cooldown_witness :
    opError scenarioBase (Op.startSession 2 10 1 8) = some Err.noSlotAvailable ∧
    opError scenarioBase (Op.startSession 2 1800 1 8) = none := by
  refine ⟨(startSession_cooldown scenarioBase 2 10 1 8 (by decide)).1 (by decide),
    ((startSession_cooldown scenarioBase 2 1800 1 8 (by decide)).2 (by decide) (by decide)
      (by decide) (by decide) (by decide) (by decide)).1⟩

/-- Counterexample for C2 as stated: a call within the cooldown by an
unregistered caller fails with not-registered (not no-slot-available), and
after 65534 successful starts a call at the boundary by a registered caller
with valid arguments reverts on the uint16 counter overflow instead of
succeeding. -/
theorem startSession_cooldown_cex :
    (opError (deploy 1 0) (Op.startSession 2 0 1 5) = some Err.notRegistered ∧
      0 < (deploy 1 0).lastSessionTime + BREAK_DURATION) ∧
    (((startChain 65534).patientProfiles 2).isActive = true ∧
      (startChain 65534).lastSessionTime + BREAK_DURATION ≤ 1800 * 65535 ∧
      opError (startChain 65534) (Op.startSession 2 (1800 * 65535) 1 1) =
        some Err.uint16Overflow) := by
  obtain ⟨hcid, hlast, hreg⟩ := startChain_fields 65534 (by norm_num)
  refine ⟨⟨by decide, by decide⟩, hreg, ?_, ?_⟩
  · rw [hlast]
    simp only [BREAK_DURATION]
    norm_num
  · exact startSession_overflow _ 2 (1800 * 65535) 1 1 hreg
      (by rw [hlast]; simp only [BREAK_DURATION]; norm_num)
      (by norm_num) (by norm_num) (by norm_num) (by norm_num)
      (by rw [hcid]; decide)

/-- C3 (amended): a second register by an identity with an active profile
always fails, with already-registered when all three values are in 0..10
and with the range error otherwise (the range check precedes the
already-registered check). -/
theorem register_twice_fails (s : State) (sender now a d st : Nat)
    (hreg : (s.patientProfiles sender).isActive = true) :
    opError s (Op.register sender now a d st) =
      some (if a ≤ 10 ∧ d ≤ 10 ∧ st ≤ 10 then Err.alreadyRegistered
        else Err.levelsOutOfRange) := by
  by_cases hr : a ≤ 10 ∧ d ≤ 10 ∧ st ≤ 10
  · rw [if_pos hr]
    refine opError_of_error _ _ _ ?_
    simp only [stepOp, registerPatient]
    rw [if_neg (not_not_intro hr), if_pos hreg]
  · rw [if_neg hr]
    refine opError_of_error _ _ _ ?_
    simp only [stepOp, registerPatient]
    rw [if_pos hr]

/-- Witness for C3: a registered identity re-registering with in-range
values gets already-registered. -/
theorem register_twice_fails_witness :
    opError scenarioBase (Op.register 2 5 5 4 3) = some Err.alreadyRegistered := by
  have h := register_twice_fails scenarioBase 2 5 5 4 3 (by decide)
  rw [h]
  decide

/-- Counterexample for C3 as stated: a registered identity re-registering
with an out-of-range value gets the range error, not already-registered. -/
theorem register_twice_fails_cex :
    isPatientRegistered scenarioBase 2 = true ∧
    opError scenarioBase (Op.register 2 5 11 0 0) = some Err.levelsOutOfRange := by
  decide

/-- C4: double completion, evaluated on the code.  Completing session 1
succeeds once; the completed session has `sessionCompleted = true`, yet a
second completion attempt by the owner or by the counselor reverts with
session-not-active — the `Session already completed` require is shadowed
because completion also clears `sessionActive` and the active check runs
first — and the session record is left unchanged. -/
theorem completeSession_twice_eval :
    opError scenarioAfterStart (Op.complete 2 1800 1 7) = none ∧
    (scenarioAfterComplete.sessions 1).sessionCompleted = true ∧
    (scenarioAfterComplete.sessions 1).sessionActive = false ∧
    opError scenarioAfterComplete (Op.complete 2 1900 1 5) = some Err.sessionNotActive ∧
    opError scenarioAfterComplete (Op.complete 1 1900 1 9) = some Err.sessionNotActive ∧
    (applyOp scenarioAfterComplete (Op.complete 2 1900 1 5)).sessions 1 =
      scenarioAfterComplete.sessions 1 := by
  decide


/-- C5: the emergency signal is raised exactly when some level is at least
9 or all three are at least 7; both register (for a fresh identity) and
updateLevels (for a registered one) emit exactly one `EmergencyAlert`
carrying only the caller and the timestamp when the condition holds and
none otherwise; the listed boundary triples behave as claimed. -/
theorem emergency_threshold (s t : State) (p q now m a d st : Nat)
    (hp : (s.patientProfiles p).isActive = false)
    (hq : (t.patientProfiles q).isActive = true)
    (ha : a ≤ 10) (hd : d ≤ 10) (hst : st ≤ 10) :
    (checkEmergencyLevel a d st = true ↔
      (9 ≤ a ∨ 9 ≤ d ∨ 9 ≤ st ∨ (7 ≤ a ∧ 7 ≤ d ∧ 7 ≤ st))) ∧
    opEvents s (Op.register p now a d st) =
      (if checkEmergencyLevel a d st then [Event.emergencyAlert p now] else []) ++
        [Event.patientRegistered p now] ∧
    opEvents t (Op.updateLevels q m a d st) =
      (if checkEmergencyLevel a d st then [Event.emergencyAlert q m] else []) ∧
    checkEmergencyLevel 9 0 0 = true ∧ checkEmergencyLevel 0 9 0 = true ∧
    checkEmergencyLevel 0 0 9 = true ∧ checkEmergencyLevel 7 7 7 = true ∧
    checkEmergencyLevel 8 8 8 = true ∧ checkEmergencyLevel 6 7 7 = false ∧
    checkEmergencyLevel 5 4 6 = false := by
  refine ⟨?_, ?_, ?_, by decide, by decide, by decide, by decide, by decide, by decide, by decide⟩
  · simp only [checkEmergencyLevel, Bool.or_eq_true, Bool.and_eq_true, decide_eq_true_eq]
    tauto
  · unfold opEvents
    simp only [stepOp, registerPatient]
    rw [if_neg (not_not_intro ⟨ha, hd, hst⟩), if_neg (by simp [hp])]
    simp [emergencyAlertEvents]
  · unfold opEvents
    simp only [stepOp, updateMentalHealthLevels]
    rw [if_neg (not_not_intro hq), if_neg (not_not_intro ⟨ha, hd, hst⟩)]
    simp [emergencyAlertEvents]

/-- Witness for C5: register(9,5,6) emits the alert followed by the
registration event; updateLevels(5,4,6) emits nothing. -/
theorem emergency_threshold_witness :
    opEvents (deploy 1 0) (Op.register 2 3 9 5 6) =
      [Event.emergencyAlert 2 3, Event.patientRegistered 2 3] ∧
    opEvents scenarioBase (Op.updateLevels 2 7 5 4 6) = [] := by
  have h1 := emergency_threshold (deploy 1 0) scenarioBase 2 2 3 7 9 5 6
    (by decide) (by decide) (by decide) (by decide) (by decide)
  have h2 := emergency_threshold (deploy 1 0) scenarioBase 2 2 3 7 5 4 6
    (by decide) (by decide) (by decide) (by decide) (by decide)
  refine ⟨?_, ?_⟩
  · rw [h1.2.1]
    decide
  · rw [h2.2.2.1]
    decide

/-- C6: starting from deployment, after any transaction sequence with N
successful session starts the counter equals N + 1 and the created session
ids (those whose record is active or completed) are exactly 1..N. -/
theorem session_ids_exactly_one_to_count (c t : Nat) (ops : List Op) :
    (run (deploy c t) ops).currentSessionId = countStarts (deploy c t) ops + 1 ∧
    (∀ i, (((run (deploy c t) ops).sessions i).sessionActive = true ∨
        ((run (deploy c t) ops).sessions i).sessionCompleted = true) ↔
      (1 ≤ i ∧ i ≤ countStarts (deploy c t) ops)) := by
  obtain ⟨h1, h2, hcreated, hempty⟩ := inv_run (deploy c t) ops (inv_deploy c t)
  have hcid := currentSessionId_run (deploy c t) ops
  have hc1 : (deploy c t).currentSessionId = 1 := rfl
  rw [hc1] at hcid
  refine ⟨by omega, fun i => ⟨?_, ?_⟩⟩
  · intro hflags
    by_contra hc
    have he := hempty i (by omega)
    rw [he] at hflags
    simp [emptySession] at hflags
  · intro hi
    exact hcreated i hi.1 (by omega)

/-- Any state, any caller: updateMentalHealthLevels with an out-of-range
level fails — with the range error when the caller is registered, and with
not-registered (the modifier runs first) otherwise. -/
theorem updateLevels_fails_on_bad_levels (s : State) (sender now a d st : Nat)
    (hr : ¬ (a ≤ 10 ∧ d ≤ 10 ∧ st ≤ 10)) :
    opError s (Op.updateLevels sender now a d st) =
      some (if (s.patientProfiles sender).isActive = true then Err.levelsOutOfRange
        else Err.notRegistered) := by
  by_cases hreg : (s.patientProfiles sender).isActive = true
  · rw [if_pos hreg]
    refine opError_of_error _ _ _ ?_
    simp only [stepOp, updateMentalHealthLevels]
    rw [if_neg (not_not_intro hreg), if_pos hr]
  · rw [if_neg hreg]
    refine opError_of_error _ _ _ ?_
    simp only [stepOp, updateMentalHealthLevels]
    rw [if_pos hreg]

/-- Any state, any caller: startCounselingSession with an out-of-range
session type or severity fails with some error (the success branch is
unreachable whatever the registration and cooldown checks yield). -/
theorem startSession_fails_on_bad_args (s : State) (sender now ty sev : Nat)
    (hr : ¬ ((1 ≤ ty ∧ ty ≤ 4) ∧ (1 ≤ sev ∧ sev ≤ 10))) :
    ∃ e, opError s (Op.startSession sender now ty sev) = some e := by
  unfold opError
  simp only [stepOp, startCounselingSession]
  by_cases h1 : (s.patientProfiles sender).isActive = true
  · rw [if_neg (not_not_intro h1)]
    by_cases h2 : isSessionTimeAvailable s now = true
    · rw [if_neg (not_not_intro h2)]
      by_cases h3 : 1 ≤ ty ∧ ty ≤ 4
      · rw [if_neg (not_not_intro h3), if_pos (by tauto)]
        exact ⟨_, rfl⟩
      · rw [if_pos h3]
        exact ⟨_, rfl⟩
    · rw [if_pos h2]
      exact ⟨_, rfl⟩
  · rw [if_pos h1]
    exact ⟨_, rfl⟩

/-- Any state, any caller: createTherapyPlan with an out-of-range session
count or priority fails with some error (the success branch is unreachable
whatever the counselor and registration checks yield). -/
theorem createPlan_fails_on_bad_args (s : State) (sender now patient r pr : Nat)
    (hr : ¬ ((1 ≤ r ∧ r ≤ 20) ∧ (1 ≤ pr ∧ pr ≤ 4))) :
    ∃ e, opError s (Op.createPlan sender now patient r pr) = some e := by
  unfold opError
  simp only [stepOp, createTherapyPlan]
  by_cases h1 : sender = s.counselor
  · rw [if_neg (not_not_intro h1)]
    by_cases h2 : (s.patientProfiles patient).isActive = true
    · rw [if_neg (not_not_intro h2)]
      by_cases h3 : 1 ≤ r ∧ r ≤ 20
      · rw [if_neg (not_not_intro h3), if_pos (by tauto)]
        exact ⟨_, rfl⟩
      · rw [if_pos h3]
        exact ⟨_, rfl⟩
    · rw [if_pos h2]
      exact ⟨_, rfl⟩
  · rw [if_pos h1]
    exact ⟨_, rfl⟩

/-- C7 (amended): every call with an out-of-range numeric argument is
rejected and mutates nothing, in every state and for every caller; the
reported error is the specific range error provided the earlier checks of
the same call (registration, cooldown, counselor authorization) pass —
register and completeSession check ranges first, so they always report
the range error, and updateLevels reports it whenever the caller is
registered. -/
theorem out_of_range_rejected (s : State)
    (sender now patient a d st ty sev sid score r pr : Nat) :
    (¬ (a ≤ 10 ∧ d ≤ 10 ∧ st ≤ 10) →
      opError s (Op.register sender now a d st) = some Err.levelsOutOfRange ∧
      applyOp s (Op.register sender now a d st) = s ∧
      opError s (Op.updateLevels sender now a d st) =
        some (if (s.patientProfiles sender).isActive = true then Err.levelsOutOfRange
          else Err.notRegistered) ∧
      applyOp s (Op.updateLevels sender now a d st) = s) ∧
    (¬ ((1 ≤ ty ∧ ty ≤ 4) ∧ (1 ≤ sev ∧ sev ≤ 10)) →
      (∃ e, opError s (Op.startSession sender now ty sev) = some e) ∧
      applyOp s (Op.startSession sender now ty sev) = s) ∧
    (10 < score →
      opError s (Op.complete sender now sid score) = some Err.scoreOutOfRange ∧
      applyOp s (Op.complete sender now sid score) = s) ∧
    (¬ ((1 ≤ r ∧ r ≤ 20) ∧ (1 ≤ pr ∧ pr ≤ 4)) →
      (∃ e, opError s (Op.createPlan sender now patient r pr) = some e) ∧
      applyOp s (Op.createPlan sender now patient r pr) = s) ∧
    ((s.patientProfiles sender).isActive = true →
      isSessionTimeAvailable s now = true →
      (¬ (1 ≤ ty ∧ ty ≤ 4) →
        opError s (Op.startSession sender now ty sev) = some Err.invalidSessionType) ∧
      ((1 ≤ ty ∧ ty ≤ 4) → ¬ (1 ≤ sev ∧ sev ≤ 10) →
        opError s (Op.startSession sender now ty sev) = some Err.severityOutOfRange)) ∧
    (sender = s.counselor → (s.patientProfiles patient).isActive = true →
      (¬ (1 ≤ r ∧ r ≤ 20) →
        opError s (Op.createPlan sender now patient r pr) = some Err.sessionsOutOfRange) ∧
      ((1 ≤ r ∧ r ≤ 20) → ¬ (1 ≤ pr ∧ pr ≤ 4) →
        opError s (Op.createPlan sender now patient r pr) = some Err.priorityOutOfRange)) := by
  refine ⟨?_, ?_, ?_, ?_, ?_, ?_⟩
  · intro hr
    have h1 : opError s (Op.register sender now a d st) = some Err.levelsOutOfRange := by
      refine opError_of_error _ _ _ ?_
      simp only [stepOp, registerPatient]
      rw [if_pos hr]
    have h2 := updateLevels_fails_on_bad_levels s sender now a d st hr
    exact ⟨h1, applyOp_of_opError s _ _ h1, h2, applyOp_of_opError s _ _ h2⟩
  · intro hr
    obtain ⟨e, he⟩ := startSession_fails_on_bad_args s sender now ty sev hr
    exact ⟨⟨e, he⟩, applyOp_of_opError s e _ he⟩
  · intro hscore
    have h1 : opError s (Op.complete sender now sid score) = some Err.scoreOutOfRange := by
      refine opError_of_error _ _ _ ?_
      simp only [stepOp, completeSession]
      rw [if_pos (by omega)]
    exact ⟨h1, applyOp_of_opError s _ _ h1⟩
  · intro hr
    obtain ⟨e, he⟩ := createPlan_fails_on_bad_args s sender now patient r pr hr
    exact ⟨⟨e, he⟩, applyOp_of_opError s e _ he⟩
  · intro hreg havail
    refine ⟨fun hty => opError_of_error _ _ _ ?_, fun hty hsev => opError_of_error _ _ _ ?_⟩
    · simp only [stepOp, startCounselingSession]
      rw [if_neg (not_not_intro hreg), if_neg (not_not_intro havail), if_pos hty]
    · simp only [stepOp, startCounselingSession]
      rw [if_neg (not_not_intro hreg), if_neg (not_not_intro havail),
        if_neg (not_not_intro hty), if_pos hsev]
  · intro hc hreg
    refine ⟨fun hr => opError_of_error _ _ _ ?_, fun hr hpr => opError_of_error _ _ _ ?_⟩
    · simp only [stepOp, createTherapyPlan]
      rw [if_neg (not_not_intro hc), if_neg (not_not_intro hreg), if_pos hr]
    · simp only [stepOp, createTherapyPlan]
      rw [if_neg (not_not_intro hc), if_neg (not_not_intro hreg),
        if_neg (not_not_intro hr), if_pos hpr]

/-- Counterexample for C7 as stated: a startSession with an invalid
session-type code is rejected with not-registered (unregistered caller) or
no-slot-available (cooldown active), not with invalid-session-type. -/
theorem out_of_range_rejected_cex :
    opError scenarioBase (Op.startSession 4 3600 0 5) = some Err.notRegistered ∧
    opError scenarioBase (Op.startSession 2 5 0 5) = some Err.noSlotAvailable := by
  decide

/-- C8: every mutating call that terminates with an error leaves the whole
state unchanged (EVM revert semantics, mirrored by the embedding). -/
theorem errors_leave_state_unchanged (s : State) (op : Op) (e : Err)
    (h : opError s op = some e) : applyOp s op = s :=
  applyOp_of_opError s e op h

/-- Witness for C8: a failing duplicate registration leaves the scenario
state unchanged. -/
theorem errors_leave_state_unchanged_witness :
    opError scenarioBase (Op.register 2 9 5 4 3) = some Err.alreadyRegistered ∧
    applyOp scenarioBase (Op.register 2 9 5 4 3) = scenarioBase := by
  refine ⟨by decide, errors_leave_state_unchanged scenarioBase _ Err.alreadyRegistered (by decide)⟩

/-- C9 (amended): completing a session id that was never created (zero or
at least the current counter) always fails, with session-not-active when
the caller passes the authorization check (the counselor, or the zero
address matching the default record) and not-authorized otherwise; the
contract has no session-not-found error. -/
theorem completeSession_unknown_id (c t : Nat) (ops : List Op) (sender now sid score : Nat)
    (hsid : sid = 0 ∨ (run (deploy c t) ops).currentSessionId ≤ sid)
    (hscore : score ≤ 10) :
    opError (run (deploy c t) ops) (Op.complete sender now sid score) =
      some (if 0 = sender ∨ sender = (run (deploy c t) ops).counselor
        then Err.sessionNotActive else Err.notAuthorized) := by
  obtain ⟨h1, -, -, hempty⟩ := inv_run (deploy c t) ops (inv_deploy c t)
  have hemp : (run (deploy c t) ops).sessions sid = emptySession := hempty sid (by omega)
  by_cases hcond : 0 = sender ∨ sender = (run (deploy c t) ops).counselor
  · rw [if_pos hcond]
    refine opError_of_error _ _ _ ?_
    simp only [stepOp, completeSession, hemp]
    rw [if_neg (not_not_intro hscore),
      if_neg (not_not_intro (by simpa [emptySession] using hcond)),
      if_pos (by simp [emptySession])]
  · rw [if_neg hcond]
    refine opError_of_error _ _ _ ?_
    simp only [stepOp, completeSession, hemp]
    rw [if_neg (not_not_intro hscore), if_pos (by simpa [emptySession] using hcond)]

/-- Witness for C9: on the freshly deployed state, the counselor completing
the never-created session 1 gets session-not-active. -/
theorem completeSession_unknown_id_witness :
    opError (run (deploy 1 0) []) (Op.complete 1 0 1 5) = some Err.sessionNotActive := by
  have h := completeSession_unknown_id 1 0 [] 1 0 1 5 (Or.inr (by decide)) (by decide)
  rw [h]
  decide

/-- Counterexample for C9 as stated: completing a never-created session id
fails with session-not-active (counselor) or not-authorized (other caller),
never with a session-not-found error. -/
theorem completeSession_unknown_id_cex :
    opError (deploy 1 0) (Op.complete 1 0 1 5) = some Err.sessionNotActive ∧
    opError (deploy 1 0) (Op.complete 2 0 1 5) = some Err.notAuthorized := by
  decide

/-- C10: the read-only queries are total and return the zero defaults on
unknown keys: a never-created session id yields all-false/zero session
info, and an account touched by no transaction is unregistered and has the
empty therapy-plan status. -/
theorem queries_default_on_unknown_keys (c t : Nat) (ops : List Op) (sid acct : Nat)
    (hsid : sid = 0 ∨ (run (deploy c t) ops).currentSessionId ≤ sid)
    (hacct : ∀ op ∈ ops, ¬ opTouchesAccount op acct) :
    getSessionInfo (run (deploy c t) ops) sid = (false, false, 0, 0, 0) ∧
    isPatientRegistered (run (deploy c t) ops) acct = false ∧
    getTherapyPlanStatus (run (deploy c t) ops) acct = (false, 0) := by
  obtain ⟨h1, -, -, hempty⟩ := inv_run (deploy c t) ops (inv_deploy c t)
  have hemp := hempty sid (by omega)
  have hframe := account_frame_run (deploy c t) ops acct hacct
  refine ⟨?_, ?_, ?_⟩
  · simp [getSessionInfo, hemp, emptySession]
  · unfold isPatientRegistered
    rw [hframe.1]
    rfl
  · unfold getTherapyPlanStatus
    rw [hframe.2]
    rfl

/-- Witness for C10: on the freshly deployed state the three queries return
the stated defaults. -/
theorem queries_default_on_unknown_keys_witness :
    getSessionInfo (run (deploy 1 0) []) 0 = (false, false, 0, 0, 0) ∧
    isPatientRegistered (run (deploy 1 0) []) 9 = false ∧
    getTherapyPlanStatus (run (deploy 1 0) []) 9 = (false, 0) :=
  queries_default_on_unknown_keys 1 0 [] 0 9 (Or.inl rfl) (by simp)

end AnonymousMentalHealth
